import Mathlib

/-!
Verification of the Fade-and-Persist Text Buffer of the ephemeral-notes
editor (`src/pages/editor/[id].tsx` and `src/pages/viewer/[id].tsx`),
shallowly embedded in Lean.  Timestamps are milliseconds as `Nat`; the
JavaScript comparison `currentTime - timestamp >= timeout` agrees with
truncated `Nat` subtraction because a negative JS difference and a
truncated-to-zero `Nat` difference both fail the `>= 120000` test.
-/

namespace EphemeralNotes

/-- `const timeout = 120000;` — the fade delay in milliseconds. -/
def timeout : Nat := 120000

/-- The decay interval period: `setInterval(..., 1000)`. -/
def tickIntervalMs : Nat := 1000

/-- The debounce delay passed to `debounce(..., 500)` in `saveDocumentDebounced`. -/
def saveDebounceWaitMs : Nat := 500

/-- Save lifecycle states: `type SaveStatus = "idle" | "saving" | "saved" | "error"`. -/
inductive SaveStatus where
  | idle
  | saving
  | saved
  | error
deriving DecidableEq, Repr

/-- One entry of the `blocks` map: the map key (Draft block key), the block
text and its last-modified timestamp, i.e. `blocks.set(key, [text, timestamp])`. -/
structure BlockEntry where
  key : String
  text : String
  lastModified : Nat
deriving DecidableEq, Repr

/-- The content synthesis inlined in `handleEditorChange` (editor page,
lines 278–286): if `initialContent !== "" && currentVisualText !== ""` then
`initialContent + "\n" + currentVisualText` else `initialContent + currentVisualText`. -/
def synthesize (persisted visible : String) : String :=
  if persisted ≠ "" ∧ visible ≠ "" then persisted ++ "\n" ++ visible
  else persisted ++ visible

/-- The per-block tracker update of `handleEditorChange` (lines 256–268): an
unseen key gets `[newText, currentTime]`; a seen key keeps its old entry when
the text is unchanged and otherwise gets `[newText, currentTime]`. -/
def trackerUpdate (old : Option BlockEntry) (k newText : String) (now : Nat) : BlockEntry :=
  match old with
  | some b => if b.text = newText then b else { key := k, text := newText, lastModified := now }
  | none => { key := k, text := newText, lastModified := now }

/-- `blocks.get(block.getKey())` on the association-list model of the map. -/
def lookupBlock (blocks : List BlockEntry) (k : String) : Option BlockEntry :=
  blocks.find? (fun b => b.key == k)

/-- The full rebuild of the blocks map in `handleEditorChange`: iterate the
editor's block array (key/text pairs) and apply the tracker update to each. -/
def updateBlocks (blocks : List BlockEntry) (newTexts : List (String × String))
    (now : Nat) : List BlockEntry :=
  newTexts.map (fun kt => trackerUpdate (lookupBlock blocks kt.1) kt.1 kt.2 now)

/-- `getCurrentContent().getPlainText("\n")`: block texts joined by newlines. -/
def visibleText (texts : List String) : String :=
  String.intercalate "\n" texts

/-- The session state the content pipeline acts on: the blocks map,
`initialContent` (set once on fetch) and `persistentContent` (the latest
CombinedContent handed to the debounced save). -/
structure EditorSession where
  blocks : List BlockEntry
  initialContent : String
  persistentContent : String
deriving DecidableEq, Repr

/-- The plain text currently on screen: the blocks map mirrors the editor
content after every event, so this is `getPlainText("\n")` of the visual state. -/
def sessionVisible (s : EditorSession) : String :=
  visibleText (s.blocks.map BlockEntry.text)

/-- `handleEditorChange` (editor page, lines 249–304): rebuild the blocks map
from the editor's new block array, then set `persistentContent` to the
synthesis of `initialContent` with the new visual plain text. -/
def handleEditorChange (s : EditorSession) (newTexts : List (String × String))
    (now : Nat) : EditorSession :=
  { s with
    blocks := updateBlocks s.blocks newTexts now
    persistentContent := synthesize s.initialContent (visibleText (newTexts.map Prod.snd)) }

/-- One map entry as processed by the decay interval (lines 176–183):
`if (currentTime - timestamp >= timeout) newBlocks.set(key, ["", timestamp])`.
There is no check that the text is non-empty. -/
def decayEntry (now : Nat) (b : BlockEntry) : BlockEntry :=
  if timeout ≤ now - b.lastModified then { b with text := "" } else b

/-- The decayed blocks map produced by one tick. -/
def decayTickBlocks (now : Nat) (blocks : List BlockEntry) : List BlockEntry :=
  blocks.map (decayEntry now)

/-- The `shouldUpdate` flag of the decay interval: set whenever some entry
satisfies `currentTime - timestamp >= timeout`, regardless of whether its
text is already empty. The tick republishes (calls `setEditorState` and
`setBlocks`) exactly when this flag is true. -/
def decayShouldUpdate (now : Nat) (blocks : List BlockEntry) : Bool :=
  blocks.any (fun b => timeout ≤ now - b.lastModified)

/-- One decay tick acting on the session (it never touches
`initialContent` or `persistentContent`). -/
def decayTick (s : EditorSession) (now : Nat) : EditorSession :=
  { s with blocks := decayTickBlocks now s.blocks }

/-- Boolean subsequence test on character lists, used to state that an edit
only inserts text: the old visible text embeds in order into the new one. -/
def isSubseqB : List Char → List Char → Bool
  | [], _ => true
  | _ :: _, [] => false
  | a :: as, b :: bs => if a = b then isSubseqB as bs else isSubseqB (a :: as) bs

/-- A user edit only inserts characters relative to the text it started from. -/
def insertOnly (old new : String) : Prop :=
  isSubseqB old.data new.data = true

instance (old new : String) : Decidable (insertOnly old new) := by
  unfold insertOnly
  infer_instance

/-- Model of JavaScript `String.prototype.trim()` as used by
`titleToSave.trim()`: drop whitespace from both ends. -/
def jsTrim (s : String) : String :=
  ⟨((s.data.dropWhile Char.isWhitespace).reverse.dropWhile Char.isWhitespace).reverse⟩

/-- `titleToSave.trim() || "Untitled Document"`: the title actually written
and adopted as the new baseline by a successful save. -/
def adoptTitle (t : String) : String :=
  if jsTrim t = "" then "Untitled Document" else jsTrim t

/-- The save-related state touched by the debounced save callback:
`saveStatus`, `originalTitle` (the adopted title baseline) and the surfaced
error message. -/
structure SaveSession where
  saveStatus : SaveStatus
  originalTitle : String
  errMsg : Option String
deriving DecidableEq, Repr

/-- Events of the in-flight-save timeline: a debounced callback firing with
its captured arguments, and the arrival of a network response (success or
failure) for some earlier fire.  The code keeps no sequence number, so a
completion is processed whenever it arrives. -/
inductive SaveEvent where
  | fire (content title : String)
  | completeOk (content title : String)
  | completeErr (content title : String)
deriving DecidableEq, Repr

/-- The state transition of `saveDocumentDebounced` (editor page, lines
216–243), assuming the `documentId`/`user`/`isEditable` guard passes: firing
sets `saveStatus` to `saving` and clears the error; a success response sets
`saved` and adopts the fired title (trimmed, defaulted); a failure response
sets `error` and the error message.  Responses are applied in arrival order
with no staleness check. -/
def saveStep (s : SaveSession) : SaveEvent → SaveSession
  | SaveEvent.fire _ _ => { s with saveStatus := SaveStatus.saving, errMsg := none }
  | SaveEvent.completeOk _ t =>
      { s with saveStatus := SaveStatus.saved, originalTitle := adoptTitle t }
  | SaveEvent.completeErr _ _ =>
      { s with saveStatus := SaveStatus.error, errMsg := some "Failed to save document." }

/-- Run a sequence of save-timeline events. -/
def saveRun (s : SaveSession) (evs : List SaveEvent) : SaveSession :=
  evs.foldl saveStep s

/-- The `debounce` utility (editor page, lines 22–35) applied to a timed call
sequence: each call clears the pending timer and arms a new one, so a call's
callback fires only when the next call (if any) comes at least `wait`
milliseconds later.  The result is the argument list of the calls that fire,
in order. -/
def debounceFires (wait : Nat) : List (Nat × α) → List α
  | [] => []
  | [(_, a)] => [a]
  | (t₁, a₁) :: (t₂, a₂) :: rest =>
      if t₂ - t₁ < wait then debounceFires wait ((t₂, a₂) :: rest)
      else a₁ :: debounceFires wait ((t₂, a₂) :: rest)

/-- A field-level write against the `documents` store: only the fields
present in the `update({...})` payload are written. -/
structure StoreWrite where
  content : Option String
  title : Option String
  isEditable : Option Bool
deriving DecidableEq, Repr

/-- The publish write of `confirmPublishAction`:
`update({ is_editable: false })` — no content field, no title field. -/
def publishWrite : StoreWrite :=
  { content := none, title := none, isEditable := some false }

/-- The write issued by a fired save:
`update({ content: contentToSave, title: titleToSave.trim() || "Untitled Document" })`. -/
def mkSaveWrite (content title : String) : StoreWrite :=
  { content := some content, title := some (adoptTitle title), isEditable := none }

/-- A document record as held by the external store. -/
structure StoredDoc where
  title : String
  content : String
  isEditable : Bool
deriving DecidableEq, Repr

/-- Apply a field-level write to a stored document: absent fields are kept. -/
def applyWrite (w : StoreWrite) (d : StoredDoc) : StoredDoc :=
  { title := w.title.getD d.title
    content := w.content.getD d.content
    isEditable := w.isEditable.getD d.isEditable }

/-- The component state read by the publish flow: whether `documentId` and
`user` are both available, `isEditable`, the `publishing` flag, the save
status and the confirmation-modal flag. -/
structure PublishState where
  hasDocAndUser : Bool
  isEditable : Bool
  publishing : Bool
  saveStatus : SaveStatus
  isConfirmModalOpen : Bool
deriving DecidableEq, Repr

/-- `handlePublish` (lines 355–359):
`if (!isEditable || publishing || saveStatus === "saving") return;` then open
the confirmation modal. -/
def handlePublish (s : PublishState) : PublishState :=
  if s.isEditable = false ∨ s.publishing = true ∨ s.saveStatus = SaveStatus.saving then s
  else { s with isConfirmModalOpen := true }

/-- `setIsConfirmModalOpen(false)` — the first statement of `confirmPublishAction`. -/
def closeModal (s : PublishState) : PublishState :=
  { s with isConfirmModalOpen := false }

/-- `confirmPublishAction` (lines 362–392): close the modal, guard on
`documentId`/`user`/`isEditable`/`publishing`, then issue the
`is_editable: false` write; on success set `isEditable` false locally; the
`finally` clause resets `publishing`.  Returns the new state and the list of
store writes dispatched. -/
def confirmPublishAction (success : Bool) (s : PublishState) : PublishState × List StoreWrite :=
  if s.hasDocAndUser = false ∨ s.isEditable = false ∨ s.publishing = true then
    (closeModal s, [])
  else if success = true then
    ({ closeModal s with isEditable := false, publishing := false }, [publishWrite])
  else
    ({ closeModal s with publishing := false }, [publishWrite])

/-- The publish flow invoked in state `s`: `handlePublish` opens the modal
(unless blocked), and when it opened and the user confirms,
`confirmPublishAction` runs. -/
def publishFlow (success confirm : Bool) (s : PublishState) : PublishState × List StoreWrite :=
  if (handlePublish s).isConfirmModalOpen = true ∧ confirm = true then
    confirmPublishAction success (handlePublish s)
  else (handlePublish s, [])

/-- JavaScript `a || b` on strings for the falsy empty string, as in
`data.title || "Untitled Document"`. -/
def jsOrElse (s dflt : String) : String :=
  if s = "" then dflt else s

/-- Outcome of the editor page's `fetchDocument` on fetched data (lines
127–148): redirect to the viewer, or enter edit mode with the fetched title
and content. -/
inductive EditorLoadOutcome where
  | redirectToViewer
  | enterEditor (title content : String)
deriving DecidableEq, Repr

/-- Outcome of the viewer page's `fetchDocument` on fetched data (lines
45–57): redirect to the editor, or show the read-only presentation. -/
inductive ViewerLoadOutcome where
  | redirectToEditor
  | showViewer (title content : String)
deriving DecidableEq, Repr

/-- Editor load path: `if (!data.is_editable) router.replace(viewer); return;`
else set the editor state from the fetched fields. -/
def editorFetchOutcome (d : StoredDoc) : EditorLoadOutcome :=
  if d.isEditable = false then EditorLoadOutcome.redirectToViewer
  else EditorLoadOutcome.enterEditor (jsOrElse d.title "Untitled Document") d.content

/-- Viewer load path: `if (data.is_editable === true) router.replace(editor);
return;` else set the viewer state from the fetched fields. -/
def viewerFetchOutcome (d : StoredDoc) : ViewerLoadOutcome :=
  if d.isEditable = true then ViewerLoadOutcome.redirectToEditor
  else ViewerLoadOutcome.showViewer (jsOrElse d.title "Untitled Document") d.content

/-- Whether the edit presentation is shown for a fetched document. -/
def editorShows (d : StoredDoc) : Bool :=
  match editorFetchOutcome d with
  | EditorLoadOutcome.enterEditor _ _ => true
  | EditorLoadOutcome.redirectToViewer => false

/-- Whether the read-only presentation is shown for a fetched document. -/
def viewerShows (d : StoredDoc) : Bool :=
  match viewerFetchOutcome d with
  | ViewerLoadOutcome.showViewer _ _ => true
  | ViewerLoadOutcome.redirectToEditor => false

/-- A string is empty exactly when its character list is empty. -/
theorem string_eq_empty_iff (s : String) : s = "" ↔ s.data = [] := by
  constructor
  · intro h; subst h; rfl
  · intro h
    cases s with
    | mk d => simp only [String.data] at h; rw [h]

/-- A subsequence is no longer than the list it embeds into. -/
theorem isSubseqB_length_le :
    ∀ (as bs : List Char), isSubseqB as bs = true → as.length ≤ bs.length
  | [], _, _ => Nat.zero_le _
  | _ :: _, [], h => by simp [isSubseqB] at h
  | a :: as, b :: bs, h => by
    by_cases hab : a = b
    · simp only [isSubseqB, if_pos hab] at h
      simpa using Nat.succ_le_succ (isSubseqB_length_le as bs h)
    · simp only [isSubseqB, if_neg hab] at h
      exact Nat.le_succ_of_le (isSubseqB_length_le (a :: as) bs h)

/-- Only the empty list embeds into the empty list. -/
theorem isSubseqB_nil_of_nil : ∀ (as : List Char), isSubseqB as [] = true → as = []
  | [], _ => rfl
  | _ :: _, h => by simp [isSubseqB] at h

/-- With the persisted side fixed, the synthesized content cannot get shorter
when the visible side gets no shorter (and does not go from non-empty to
empty). -/
theorem synthesize_length_mono (p v v' : String) (hlen : v.length ≤ v'.length)
    (hne : v ≠ "" → v' ≠ "") :
    (synthesize p v).length ≤ (synthesize p v').length := by
  unfold synthesize
  by_cases hv : v = ""
  · subst hv
    by_cases hv' : v' = ""
    · subst hv'; exact Nat.le_refl _
    · by_cases hp : p = ""
      · subst hp; simp
      · simp [hp, hv']
        omega
  · have hv' : v' ≠ "" := hne hv
    by_cases hp : p = ""
    · subst hp; simp [hlen]
    · simp [hp, hv, hv']
      omega

/-- In a call sequence whose consecutive gaps all stay under the debounce
wait, every call but the last is cancelled and the last call's arguments
fire. -/
theorem debounceFires_last (wait : Nat) (x : Nat × α) (l : List (Nat × α))
    (h : List.Chain' (fun a b : Nat × α => b.1 - a.1 < wait) (x :: l)) :
    debounceFires wait (x :: l) = [((x :: l).getLast (List.cons_ne_nil x l)).2] := by
  induction l generalizing x with
  | nil => rfl
  | cons y l' ih =>
    rw [List.chain'_cons] at h
    obtain ⟨x1, x2⟩ := x
    obtain ⟨y1, y2⟩ := y
    simp only [debounceFires, if_pos h.1]
    rw [ih ⟨y1, y2⟩ h.2]
    congr 1

/-- Claim C1, counterexample: a session with persisted content `"P"` where
the user types `"hi"` (CombinedContent `"P\nhi"`, length 4), a decay tick
clears the block, and the user then types `"x"` into the now-empty editor
(an insertion relative to what is on screen).  The next CombinedContent is
`"P\nx"`, length 3 — it shrank, because `handleEditorChange` reads the
post-decay visual text. -/
theorem combined_shrinks_after_decay_cex :
    insertOnly (sessionVisible ⟨[], "P", "P"⟩) (visibleText ["hi"]) ∧
    insertOnly
      (sessionVisible (decayTick (handleEditorChange ⟨[], "P", "P"⟩ [("k", "hi")] 0) 120000))
      (visibleText ["x"]) ∧
    (handleEditorChange (decayTick (handleEditorChange ⟨[], "P", "P"⟩ [("k", "hi")] 0) 120000)
        [("k", "x")] 120001).persistentContent.length <
      (handleEditorChange ⟨[], "P", "P"⟩ [("k", "hi")] 0).persistentContent.length := by
  decide

/-- Claim C1, amended: between two consecutive user edits with no
intervening decay-induced clearing, the CombinedContent length is
non-decreasing whenever the second edit only inserts into the first edit's
visible text; a decay tick can break this because the synthesizer reads the
post-decay visible text. -/
theorem combined_length_mono_between_edits (s : EditorSession)
    (nt1 nt2 : List (String × String)) (t1 t2 : Nat)
    (h : insertOnly (visibleText (nt1.map Prod.snd)) (visibleText (nt2.map Prod.snd))) :
    ((handleEditorChange s nt1 t1).persistentContent).length ≤
      ((handleEditorChange (handleEditorChange s nt1 t1) nt2 t2).persistentContent).length := by
  show (synthesize s.initialContent (visibleText (nt1.map Prod.snd))).length ≤
       (synthesize s.initialContent (visibleText (nt2.map Prod.snd))).length
  apply synthesize_length_mono
  · exact isSubseqB_length_le _ _ h
  · intro h1 h2
    apply h1
    apply (string_eq_empty_iff _).mpr
    apply isSubseqB_nil_of_nil
    have h2d : (visibleText (nt2.map Prod.snd)).data = [] := (string_eq_empty_iff _).mp h2
    have hh : isSubseqB (visibleText (nt1.map Prod.snd)).data
        (visibleText (nt2.map Prod.snd)).data = true := h
    rw [h2d] at hh
    exact hh

/-- Witness for the amended C1 theorem at a concrete insert-only edit pair. -/
theorem combined_length_mono_between_edits_witness :
    ((handleEditorChange (⟨[], "P", "P"⟩ : EditorSession) [("k", "a")] 0).persistentContent).length ≤
      ((handleEditorChange (handleEditorChange (⟨[], "P", "P"⟩ : EditorSession) [("k", "a")] 0)
          [("k", "ab")] 1).persistentContent).length :=
  combined_length_mono_between_edits ⟨[], "P", "P"⟩ [("k", "a")] [("k", "ab")] 0 1 (by decide)

/-- Claim C2, counterexample: save A (`content "A"`, title `"tA"`) is
superseded by save B (`content "AB"`, title `"tB"`); both are in flight and
A's response arrives after B's.  After B's response the baseline is `"tB"`,
but the late stale completion overwrites it with `"tA"` — the code has no
sequence number and applies completions in arrival order, so B's result does
not win. -/
theorem stale_save_overwrites_baseline_cex :
    (saveRun ⟨SaveStatus.saved, "orig", none⟩
        [SaveEvent.fire "A" "tA", SaveEvent.fire "AB" "tB",
         SaveEvent.completeOk "AB" "tB"]).originalTitle = adoptTitle "tB" ∧
    (saveRun ⟨SaveStatus.saved, "orig", none⟩
        [SaveEvent.fire "A" "tA", SaveEvent.fire "AB" "tB",
         SaveEvent.completeOk "AB" "tB", SaveEvent.completeOk "A" "tA"]).originalTitle
      = adoptTitle "tA" ∧
    adoptTitle "tA" ≠ adoptTitle "tB" := by
  decide

/-- Claim C2, amended: completions are applied in arrival order with no
staleness suppression, so whichever successful completion arrives last
determines the final `SaveStatus` (`saved`) and the adopted title baseline —
including a late completion of a superseded save. -/
theorem save_last_arriving_completion_wins (s : SaveSession) (evs : List SaveEvent)
    (c t : String) :
    saveRun s (evs ++ [SaveEvent.completeOk c t]) =
      { saveRun s evs with saveStatus := SaveStatus.saved, originalTitle := adoptTitle t } := by
  unfold saveRun
  rw [List.foldl_append]
  rfl

/-- Claim C3, counterexample: a single block whose text is already empty and
whose age reaches the threshold.  The tick's `shouldUpdate` flag is set (so
the visual buffer is rebuilt and republished) even though the blocks map is
value-unchanged — decay fires on an already-empty block and the tick
republishes without any block actually changing. -/
theorem decay_republishes_on_empty_block_cex :
    decayShouldUpdate 120000 [⟨"k", "", 0⟩] = true ∧
    decayTickBlocks 120000 [⟨"k", "", 0⟩] = [⟨"k", "", 0⟩] := by
  decide

/-- Claim C3, amended: a decay tick republishes exactly when some block's age
reaches the threshold — even when that block's text is already empty, so
republishing recurs on every later tick; nevertheless an already-cleared
block's entry is value-unchanged by every tick and no tick ever changes a
timestamp, so a cleared block keeps its empty text and original timestamp
until the user edits it. -/
theorem decay_tick_empty_stable_republish_iff (now ts : Nat) (k : String)
    (blocks : List BlockEntry) :
    decayEntry now ⟨k, "", ts⟩ = ⟨k, "", ts⟩ ∧
    (∀ b : BlockEntry, (decayEntry now b).lastModified = b.lastModified) ∧
    (decayShouldUpdate now blocks = true ↔ ∃ b ∈ blocks, timeout ≤ now - b.lastModified) := by
  refine ⟨?_, ?_, ?_⟩
  · unfold decayEntry; split <;> rfl
  · intro b; unfold decayEntry; split <;> rfl
  · simp [decayShouldUpdate, List.any_eq_true]

/-- Claim C4: invoking the publish flow in a state where a save is in flight
(`saveStatus = saving`) or a publish is already in progress
(`publishing = true`) dispatches no store write and leaves `isEditable`
unchanged: `handlePublish` refuses to open the confirmation modal, so
`confirmPublishAction` never runs. -/
theorem publish_blocked_while_saving_or_publishing (s : PublishState)
    (success confirm : Bool) (hmodal : s.isConfirmModalOpen = false)
    (h : s.saveStatus = SaveStatus.saving ∨ s.publishing = true) :
    (publishFlow success confirm s).2 = [] ∧
    (publishFlow success confirm s).1.isEditable = s.isEditable := by
  have hguard : s.isEditable = false ∨ s.publishing = true ∨
      s.saveStatus = SaveStatus.saving := by tauto
  unfold publishFlow handlePublish
  rw [if_pos hguard, if_neg]
  · exact ⟨rfl, rfl⟩
  · simp [hmodal]

/-- Witness for C4: the publish flow in a concrete saving state writes nothing. -/
theorem publish_blocked_while_saving_or_publishing_witness :
    (publishFlow true true ⟨true, true, false, SaveStatus.saving, false⟩).2 = [] :=
  (publish_blocked_while_saving_or_publishing ⟨true, true, false, SaveStatus.saving, false⟩
    true true rfl (Or.inl rfl)).1

/-- Claim C5: the content synthesizer joins two non-empty strings with
exactly one newline, returns the other string unchanged when either side is
empty, and satisfies the four concrete separator examples. -/
theorem synthesize_spec :
    (∀ p v : String, p ≠ "" → v ≠ "" → synthesize p v = p ++ "\n" ++ v) ∧
    (∀ v : String, synthesize "" v = v) ∧
    (∀ p : String, synthesize p "" = p) ∧
    synthesize "" "abc" = "abc" ∧ synthesize "abc" "" = "abc" ∧
    synthesize "abc" "def" = "abc\ndef" ∧ synthesize "" "" = "" := by
  refine ⟨?_, ?_, ?_, by decide, by decide, by decide, by decide⟩
  · intro p v hp hv; simp [synthesize, hp, hv]
  · intro v; simp [synthesize]
  · intro p; simp [synthesize]

/-- Witness for C5 at concrete non-empty inputs. -/
theorem synthesize_spec_witness : synthesize "x" "y" = "x" ++ "\n" ++ "y" :=
  synthesize_spec.1 "x" "y" (by decide) (by decide)

/-- Claim C6: the tracker update creates `(newText, now)` for an unseen key,
keeps the stored entry (text and timestamp) unchanged when the new text
equals the stored text, replaces it with `(newText, now)` when it differs,
and in particular an identical-text update never changes `lastModified`. -/
theorem trackerUpdate_spec (k t : String) (now : Nat) (b : BlockEntry) :
    trackerUpdate none k t now = ⟨k, t, now⟩ ∧
    (b.text = t → trackerUpdate (some b) k t now = b) ∧
    (b.text ≠ t → trackerUpdate (some b) k t now = ⟨k, t, now⟩) ∧
    (trackerUpdate (some b) k b.text now).lastModified = b.lastModified := by
  refine ⟨rfl, ?_, ?_, ?_⟩
  · intro h; simp [trackerUpdate, h]
  · intro h; simp [trackerUpdate, h]
  · simp [trackerUpdate]

/-- Witness for C6: an identical-text update keeps the stored entry. -/
theorem trackerUpdate_spec_witness :
    trackerUpdate (some ⟨"k", "a", 5⟩) "k" "a" 9 = ⟨"k", "a", 5⟩ :=
  (trackerUpdate_spec "k" "a" 9 ⟨"k", "a", 5⟩).2.1 rfl

/-- Claim C7: on a decay tick (the interval fires every 1000 ms), a block
whose age reaches 120000 ms gets its text cleared with its timestamp left
untouched, and a younger block is left entirely unchanged. -/
theorem decayEntry_spec (now : Nat) (b : BlockEntry) :
    (timeout ≤ now - b.lastModified → decayEntry now b = { b with text := "" }) ∧
    (now - b.lastModified < timeout → decayEntry now b = b) ∧
    (decayEntry now b).lastModified = b.lastModified ∧
    timeout = 120000 ∧ tickIntervalMs = 1000 := by
  refine ⟨?_, ?_, ?_, rfl, rfl⟩
  · intro h; simp [decayEntry, h]
  · intro h; simp [decayEntry, Nat.not_le.mpr h]
  · unfold decayEntry; split <;> rfl

/-- Witness for C7: a block last modified at 0 is cleared at time 120000. -/
theorem decayEntry_spec_witness :
    decayEntry 120000 ⟨"k", "hi", 0⟩ = ⟨"k", "", 0⟩ :=
  (decayEntry_spec 120000 ⟨"k", "hi", 0⟩).1 (by decide)

/-- Claim C8: when every consecutive gap in a non-empty call sequence stays
under the 500 ms debounce wait, exactly one callback fires and it receives
the content and title arguments of the last call. -/
theorem debounce_coalesce_last_call (x : Nat × String × String)
    (l : List (Nat × String × String))
    (h : List.Chain' (fun a b : Nat × String × String => b.1 - a.1 < saveDebounceWaitMs)
      (x :: l)) :
    debounceFires saveDebounceWaitMs (x :: l) =
      [((x :: l).getLast (List.cons_ne_nil x l)).2] ∧
    (debounceFires saveDebounceWaitMs (x :: l)).length = 1 := by
  refine ⟨debounceFires_last _ x l h, ?_⟩
  rw [debounceFires_last _ x l h]
  rfl

/-- Witness for C8: two calls 100 ms apart coalesce into the second call's
arguments. -/
theorem debounce_coalesce_last_call_witness :
    debounceFires saveDebounceWaitMs [((0 : Nat), ("a", "t")), ((100 : Nat), ("ab", "t"))] =
      [("ab", "t")] :=
  (debounce_coalesce_last_call (0, ("a", "t")) [(100, ("ab", "t"))]
    (by exact List.Chain.cons (by decide) List.Chain.nil)).1

/-- Claim C9: the editor load path redirects to the viewer exactly when the
fetched document is not editable (entering edit mode otherwise), the viewer
load path redirects to the editor exactly when it is editable, and for any
fetched document exactly one of the two presentations is shown. -/
theorem load_redirect_exclusivity (d : StoredDoc) :
    (editorFetchOutcome d = EditorLoadOutcome.redirectToViewer ↔ d.isEditable = false) ∧
    (viewerFetchOutcome d = ViewerLoadOutcome.redirectToEditor ↔ d.isEditable = true) ∧
    editorShows d = d.isEditable ∧
    viewerShows d = !d.isEditable ∧
    editorShows d ≠ viewerShows d := by
  cases hd : d.isEditable <;>
    simp [editorFetchOutcome, viewerFetchOutcome, editorShows, viewerShows, hd]

/-- Claim C10: the publish write carries only `is_editable = false` — no
content and no title — so applying it to any stored document preserves the
stored content and title and only flips `isEditable`; moreover
`confirmPublishAction` dispatches either nothing or exactly this write. -/
theorem publish_frame_effect (d : StoredDoc) (success : Bool) (s : PublishState) :
    publishWrite.content = none ∧ publishWrite.title = none ∧
    publishWrite.isEditable = some false ∧
    (applyWrite publishWrite d).content = d.content ∧
    (applyWrite publishWrite d).title = d.title ∧
    (applyWrite publishWrite d).isEditable = false ∧
    ((confirmPublishAction success s).2 = [] ∨
      (confirmPublishAction success s).2 = [publishWrite]) := by
  refine ⟨rfl, rfl, rfl, rfl, rfl, rfl, ?_⟩
  unfold confirmPublishAction
  split
  · exact Or.inl rfl
  · split
    · exact Or.inr rfl
    · exact Or.inr rfl

end EphemeralNotes
